import Mathlib

/-!
# Vertical Pod Autoscaler admission controller

Shallow embedding of `vertical-pod-autoscaler/pkg/admission-controller/main.go`.

`main` is stateful wiring code: it calls constructors of other packages in a
fixed order, ends the process with `glog.Fatal` when `rest.InClusterConfig` fails,
and falls back to a no-op limits calculator when `logic.NewLimitsRangeCalculator`
fails.  It is embedded as a function from an environment `Env` (the flag values
and the outcome of every call that can change what `main` does next) to the
ordered trace of calls it performs together with the way control leaves it.
Objects built by constructors of other packages are records of the arguments
`main` passes to them.
-/

namespace AdmissionController

/-! ## Values used by `main` -/

/-- Go `error`, carried by its message. -/
structure GoError where
  msg : String
  deriving DecidableEq, Repr

/-- Go `time.Duration`, in nanoseconds. -/
abbrev Duration := Nat

/-- Go `time.Minute`. -/
def Minute : Duration := 60 * 1000000000

/-- Source: `defaultResyncPeriod time.Duration = 10 * time.Minute`. -/
def defaultResyncPeriod : Duration := 10 * Minute

/-- Source: the `certsConfig` literal of the `var` block (three string flags). -/
structure certsConfig where
  clientCaFile : String
  tlsCertFile : String
  tlsPrivateKey : String
  deriving DecidableEq, Repr

/-- Values of the command-line flags declared in the `var` block of `main.go`. -/
structure Flags where
  certsConfiguration : certsConfig
  address : String
  allowToAdjustLimits : Bool
  deriving DecidableEq, Repr

/-- Flag defaults, as written in the `flag.String` / `flag.Bool` calls. -/
def defaultFlags : Flags :=
  { certsConfiguration :=
      { clientCaFile := "/etc/tls-certs/caCert.pem"
        tlsCertFile := "/etc/tls-certs/serverCert.pem"
        tlsPrivateKey := "/etc/tls-certs/serverKey.pem" }
    address := ":8944"
    allowToAdjustLimits := false }

/-- Result of `initCerts`: the fields `main` reads from it. -/
structure Certs where
  caCert : String
  serverCert : String
  serverKey : String
  deriving DecidableEq, Repr

/-- Result of `rest.InClusterConfig()`. -/
structure RestConfig where
  host : String
  deriving DecidableEq, Repr

/-- Result of `metrics.NewHealthCheck(activityTimeout, checkTimeout)`. -/
structure HealthCheck where
  activityTimeout : Duration
  checkTimeout : Bool
  deriving DecidableEq, Repr

/-- Result of `vpa_clientset.NewForConfigOrDie(config)`. -/
structure VpaClientset where
  config : RestConfig
  deriving DecidableEq, Repr

/-- Result of `vpa_api_util.NewAllVpasLister(vpaClient, make(chan struct{}))`. -/
structure AllVpasLister where
  vpaClient : VpaClientset
  deriving DecidableEq, Repr

/-- Result of `kube_client.NewForConfigOrDie(config)`. -/
structure KubeClientset where
  config : RestConfig
  deriving DecidableEq, Repr

/-- Result of `informers.NewSharedInformerFactory(kubeClient, defaultResync)`. -/
structure SharedInformerFactory where
  kubeClient : KubeClientset
  defaultResync : Duration
  deriving DecidableEq, Repr

/-- The two fetchers `main` builds with `target.NewVpaTargetSelectorFetcher` and
`target.NewBeta1TargetSelectorFetcher`. -/
inductive SelectorFetcher where
  | vpa (config : RestConfig) (kubeClient : KubeClientset) (factory : SharedInformerFactory)
  | beta1 (config : RestConfig)
  deriving DecidableEq, Repr

/-- Result of `target.NewCompositeTargetSelectorFetcher(fetchers...)`. -/
structure CompositeTargetSelectorFetcher where
  fetchers : List SelectorFetcher
  deriving DecidableEq, Repr

/-- Result of `logic.NewDefaultPodPreProcessor()`. -/
inductive PodPreProcessor where
  | default
  deriving DecidableEq, Repr

/-- The interface `logic.LimitRangeCalculator` with the two implementations `main`
can obtain: the one built from the informer factory by
`logic.NewLimitsRangeCalculator`, and the one of `logic.NewNoopLimitsCalculator`. -/
inductive LimitRangeCalculator where
  | limitsChecker (factory : SharedInformerFactory)
  | noop
  deriving DecidableEq, Repr

/-- Result of `vpa_api_util.NewCappingRecommendationProcessor()`. -/
inductive RecommendationProcessor where
  | capping
  deriving DecidableEq, Repr

/-- Result of `logic.NewRecommendationProvider`: its four arguments, in the order
of the call in `main`. -/
structure RecommendationProvider where
  limitsRangeCalculator : LimitRangeCalculator
  recommendationProcessor : RecommendationProcessor
  selectorFetcher : CompositeTargetSelectorFetcher
  vpaLister : AllVpasLister
  deriving DecidableEq, Repr

/-- Result of `logic.NewAdmissionServer`: its three arguments, in the order of the
call in `main`. -/
structure AdmissionServer where
  recommendationProvider : RecommendationProvider
  podPreProcessor : PodPreProcessor
  limitsChecker : LimitRangeCalculator
  deriving DecidableEq, Repr

/-- Result of `getClient()`. -/
structure Clientset where
  handle : Nat
  deriving DecidableEq, Repr

/-- Result of `configTLS(clientset, serverCert, serverKey)`. -/
structure TLSConfig where
  clientset : Clientset
  serverCert : String
  serverKey : String
  deriving DecidableEq, Repr

/-- The `http.Server` literal of `main`. -/
structure HttpServer where
  Addr : String
  TLSConfig : TLSConfig
  deriving DecidableEq, Repr

/-- The function literal given to `http.HandleFunc`: a closure over the two
variables its body mentions, `as` and `healthCheck`. -/
structure Handler where
  as : AdmissionServer
  healthCheck : HealthCheck
  deriving DecidableEq, Repr

/-! ## Constructors of other packages, as records of their arguments -/

def NewHealthCheck (activityTimeout : Duration) (checkTimeout : Bool) : HealthCheck :=
  { activityTimeout := activityTimeout, checkTimeout := checkTimeout }

def NewAllVpasLister (vpaClient : VpaClientset) : AllVpasLister :=
  { vpaClient := vpaClient }

def NewSharedInformerFactory (kubeClient : KubeClientset) (defaultResync : Duration) :
    SharedInformerFactory :=
  { kubeClient := kubeClient, defaultResync := defaultResync }

def NewVpaTargetSelectorFetcher (config : RestConfig) (kubeClient : KubeClientset)
    (factory : SharedInformerFactory) : SelectorFetcher :=
  .vpa config kubeClient factory

def NewBeta1TargetSelectorFetcher (config : RestConfig) : SelectorFetcher :=
  .beta1 config

def NewCompositeTargetSelectorFetcher (fetchers : List SelectorFetcher) :
    CompositeTargetSelectorFetcher :=
  { fetchers := fetchers }

def NewDefaultPodPreProcessor : PodPreProcessor := .default

def NewNoopLimitsCalculator : LimitRangeCalculator := .noop

def NewCappingRecommendationProcessor : RecommendationProcessor := .capping

def NewRecommendationProvider (calculator : LimitRangeCalculator)
    (recommendationProcessor : RecommendationProcessor)
    (selectorFetcher : CompositeTargetSelectorFetcher) (vpaLister : AllVpasLister) :
    RecommendationProvider :=
  { limitsRangeCalculator := calculator
    recommendationProcessor := recommendationProcessor
    selectorFetcher := selectorFetcher
    vpaLister := vpaLister }

def NewAdmissionServer (recommendationProvider : RecommendationProvider)
    (podPreProcessor : PodPreProcessor) (limitsChecker : LimitRangeCalculator) :
    AdmissionServer :=
  { recommendationProvider := recommendationProvider
    podPreProcessor := podPreProcessor
    limitsChecker := limitsChecker }

def configTLS (clientset : Clientset) (serverCert serverKey : String) : TLSConfig :=
  { clientset := clientset, serverCert := serverCert, serverKey := serverKey }

/-! ## The environment and the trace of `main` -/

/-- What `main` reads from outside: the parsed flags, the `NAMESPACE` variable, and
the outcome of each call whose result `main` depends on.  The two `NewForConfigOrDie`
constructors either return or end the process, as their name says; every other
callee is taken to return. -/
structure Env where
  flags : Flags
  namespaceVar : String
  initCerts : certsConfig → Certs
  InClusterConfig : Except GoError RestConfig
  vpaNewForConfigDies : RestConfig → Bool
  kubeNewForConfigDies : RestConfig → Bool
  NewLimitsRangeCalculatorErr : SharedInformerFactory → Option GoError
  getClient : Clientset

/-- One call performed by `main`, with the arguments it passes.  `Errorf` is the
`klog.Errorf` call of the fallback branch, `Infof` the `glog.V(1).Infof` call. -/
inductive Event where
  | InitFlags
  | Infof (verbosity : Nat) (format : String)
  | NewHealthCheck (hc : HealthCheck)
  | MetricsInitialize (address : String) (hc : HealthCheck)
  | MetricsAdmissionRegister
  | InitCerts (c : certsConfig)
  | InClusterConfig
  | Fatal (err : GoError)
  | VpaNewForConfigOrDie (config : RestConfig)
  | NewAllVpasLister (l : AllVpasLister)
  | KubeNewForConfigOrDie (config : RestConfig)
  | NewSharedInformerFactory (f : SharedInformerFactory)
  | NewTargetSelectorFetcher (f : CompositeTargetSelectorFetcher)
  | NewDefaultPodPreProcessor
  | NewLimitsRangeCalculator (f : SharedInformerFactory)
  | Errorf (format : String) (err : GoError)
  | NewNoopLimitsCalculator
  | NewCappingRecommendationProcessor
  | NewRecommendationProvider (p : RecommendationProvider)
  | NewAdmissionServer (a : AdmissionServer)
  | HandleFunc (pattern : String) (h : Handler)
  | GetClient
  | ConfigTLS (c : TLSConfig)
  | GoSelfRegistration (clientset : Clientset) (caCert : String) (ns : String)
  | ListenAndServeTLS (server : HttpServer) (certFile keyFile : String)
  deriving DecidableEq, Repr

/-- How control leaves `main`. -/
inductive Exit where
  /-- Ended by `glog.Fatal(err)`. -/
  | fatal (err : GoError)
  /-- Ended inside a `NewForConfigOrDie` constructor. -/
  | died
  /-- Reached the last statement, `server.ListenAndServeTLS("", "")`. -/
  | served
  deriving DecidableEq, Repr

/-- A run of `main`: the calls it performed, in order, and how control left it. -/
structure MainResult where
  trace : List Event
  exit : Exit
  deriving DecidableEq, Repr

/-- The calls of `main` up to and including `rest.InClusterConfig()`. -/
def startup (env : Env) : List Event :=
  [ .InitFlags,
    .Infof 1 "Vertical Pod Autoscaler %s Admission Controller",
    .NewHealthCheck (NewHealthCheck Minute false),
    .MetricsInitialize env.flags.address (NewHealthCheck Minute false),
    .MetricsAdmissionRegister,
    .InitCerts env.flags.certsConfiguration,
    .InClusterConfig ]

/-- Source: `func main()`. -/
def main (env : Env) : MainResult :=
  let healthCheck := NewHealthCheck Minute false
  let certs := env.initCerts env.flags.certsConfiguration
  match env.InClusterConfig with
  | .error err => { trace := startup env ++ [.Fatal err], exit := .fatal err }
  | .ok config =>
    if env.vpaNewForConfigDies config then
      { trace := startup env ++ [.VpaNewForConfigOrDie config], exit := .died }
    else
      let vpaClient : VpaClientset := { config := config }
      let vpaLister := NewAllVpasLister vpaClient
      if env.kubeNewForConfigDies config then
        { trace := startup env ++
            [.VpaNewForConfigOrDie config, .NewAllVpasLister vpaLister,
             .KubeNewForConfigOrDie config],
          exit := .died }
      else
        let kubeClient : KubeClientset := { config := config }
        let factory := NewSharedInformerFactory kubeClient defaultResyncPeriod
        let targetSelectorFetcher := NewCompositeTargetSelectorFetcher
          [ NewVpaTargetSelectorFetcher config kubeClient factory,
            NewBeta1TargetSelectorFetcher config ]
        let podPreprocessor := NewDefaultPodPreProcessor
        let wiring : List Event :=
          [ .VpaNewForConfigOrDie config, .NewAllVpasLister vpaLister,
            .KubeNewForConfigOrDie config, .NewSharedInformerFactory factory,
            .NewTargetSelectorFetcher targetSelectorFetcher,
            .NewDefaultPodPreProcessor, .NewLimitsRangeCalculator factory ]
        let (limitsChecker, fallback) : LimitRangeCalculator × List Event :=
          match env.NewLimitsRangeCalculatorErr factory with
          | some err =>
            (NewNoopLimitsCalculator,
             [ .Errorf
                 "Failed to create limitsChecker, falling back to not checking limits. Error message: %s"
                 err,
               .NewNoopLimitsCalculator ])
          | none => (.limitsChecker factory, [])
        let recommendationProvider := NewRecommendationProvider limitsChecker
          NewCappingRecommendationProcessor targetSelectorFetcher vpaLister
        let as := NewAdmissionServer recommendationProvider podPreprocessor limitsChecker
        let clientset := env.getClient
        let server : HttpServer :=
          { Addr := ":8000"
            TLSConfig := configTLS clientset certs.serverCert certs.serverKey }
        { trace := startup env ++ wiring ++ fallback ++
            [ .NewCappingRecommendationProcessor,
              .NewRecommendationProvider recommendationProvider,
              .NewAdmissionServer as,
              .HandleFunc "/" { as := as, healthCheck := healthCheck },
              .GetClient,
              .ConfigTLS server.TLSConfig,
              .GoSelfRegistration clientset certs.caCert env.namespaceVar,
              .ListenAndServeTLS server "" "" ],
          exit := .served }


/-! ## The handler registered for "/" -/

/-- An incoming `*http.Request`, as far as the handler passes it on. -/
structure Request where
  path : String
  body : String
  deriving DecidableEq, Repr

/-- What has been written to an `http.ResponseWriter`. -/
abbrev ResponseWriter := List String

/-- One call made by the handler body. -/
inductive Call where
  | Serve (as : AdmissionServer) (r : Request)
  | UpdateLastActivity (hc : HealthCheck)
  deriving DecidableEq, Repr

/-- The state a handled request acts on: the state `Serve` reads and writes (of an
arbitrary type `σ`, since `Serve` is not part of `main.go`) and the calls made so
far. -/
structure ServingState (σ : Type) where
  server : σ
  calls : List Call

/-- Source: the body of the function literal given to `http.HandleFunc`,
`as.Serve(w, r)` followed by `healthCheck.UpdateLastActivity()`.  `serve` is the
behaviour of `Serve`, a parameter; it is taken to return. -/
def Handler.ServeHTTP {σ : Type} (serve : σ → ResponseWriter → Request → σ × ResponseWriter)
    (h : Handler) (st : ServingState σ) (w : ResponseWriter) (r : Request) :
    ServingState σ × ResponseWriter :=
  let served := serve st.server w r
  let calls := st.calls ++ [Call.Serve h.as r]
  let calls := calls ++ [Call.UpdateLastActivity h.healthCheck]
  ({ server := served.1, calls := calls }, served.2)

/-- Handling a sequence of requests, each with its own response writer, one after
the other. -/
def Handler.serveAll {σ : Type} (serve : σ → ResponseWriter → Request → σ × ResponseWriter)
    (h : Handler) (st : ServingState σ) : List (ResponseWriter × Request) → ServingState σ
  | [] => st
  | (w, r) :: rest => Handler.serveAll serve h (h.ServeHTTP serve st w r).1 rest

/-- Number of `UpdateLastActivity` calls made on the health check `hc`. -/
def updatesOf (hc : HealthCheck) (calls : List Call) : Nat :=
  calls.count (Call.UpdateLastActivity hc)

/-! ## Reading the pipeline off the trace -/

/-- The recommendation provider built, if `main` got that far. -/
def providerOf : List Event → Option RecommendationProvider
  | [] => none
  | .NewRecommendationProvider p :: _ => some p
  | _ :: rest => providerOf rest

/-- The admission server built, if `main` got that far. -/
def serverOf : List Event → Option AdmissionServer
  | [] => none
  | .NewAdmissionServer a :: _ => some a
  | _ :: rest => serverOf rest

/-- The handlers registered with `http.HandleFunc`, with their patterns. -/
def handlersOf : List Event → List (String × Handler)
  | [] => []
  | .HandleFunc pattern h :: rest => (pattern, h) :: handlersOf rest
  | _ :: rest => handlersOf rest

/-- The servers on which `ListenAndServeTLS` was called. -/
def tlsServersOf : List Event → List HttpServer
  | [] => []
  | .ListenAndServeTLS s _ _ :: rest => s :: tlsServersOf rest
  | _ :: rest => tlsServersOf rest

/-- Calls that create a client, a lister, the informer factory, the recommendation
provider, the admission server, an HTTP handler or the TLS server. -/
def Event.createsPipelineObject : Event → Bool
  | .VpaNewForConfigOrDie _ => true
  | .NewAllVpasLister _ => true
  | .KubeNewForConfigOrDie _ => true
  | .NewSharedInformerFactory _ => true
  | .NewRecommendationProvider _ => true
  | .NewAdmissionServer _ => true
  | .HandleFunc _ _ => true
  | .GetClient => true
  | .ListenAndServeTLS _ _ _ => true
  | _ => false

/-- The process ended before reaching `server.ListenAndServeTLS`. -/
def MainResult.aborted (r : MainResult) : Bool :=
  match r.exit with
  | .served => false
  | _ => true

/-- The collaborators a recommendation provider was constructed with. -/
inductive Collaborator where
  | limitsRangeCalculator (c : LimitRangeCalculator)
  | recommendationProcessor (p : RecommendationProcessor)
  | selectorFetcher (f : CompositeTargetSelectorFetcher)
  | vpaLister (l : AllVpasLister)
  | podPreProcessor (p : PodPreProcessor)
  | recommendationProvider (p : RecommendationProvider)
  deriving DecidableEq, Repr

/-- The arguments of the `logic.NewRecommendationProvider` call, in order. -/
def RecommendationProvider.collaborators (p : RecommendationProvider) : List Collaborator :=
  [ .limitsRangeCalculator p.limitsRangeCalculator,
    .recommendationProcessor p.recommendationProcessor,
    .selectorFetcher p.selectorFetcher,
    .vpaLister p.vpaLister ]

/-- The arguments of the `logic.NewAdmissionServer` call, in order. -/
def AdmissionServer.collaborators (a : AdmissionServer) : List Collaborator :=
  [ .recommendationProvider a.recommendationProvider,
    .podPreProcessor a.podPreProcessor,
    .limitsRangeCalculator a.limitsChecker ]

/-- A concrete environment: default flags, every call succeeds. -/
def envOk : Env :=
  { flags := defaultFlags
    namespaceVar := "kube-system"
    initCerts := fun _ => { caCert := "ca", serverCert := "cert", serverKey := "key" }
    InClusterConfig := .ok { host := "https://10.0.0.1:443" }
    vpaNewForConfigDies := fun _ => false
    kubeNewForConfigDies := fun _ => false
    NewLimitsRangeCalculatorErr := fun _ => none
    getClient := { handle := 1 } }

/-- As `envOk`, but `logic.NewLimitsRangeCalculator` returns an error. -/
def envNoLimitRanges : Env :=
  { envOk with
    NewLimitsRangeCalculatorErr := fun _ => some { msg := "informer did not sync" } }

/-- As `envOk`, but `rest.InClusterConfig` returns an error. -/
def envNoConfig : Env :=
  { envOk with InClusterConfig := .error { msg := "not running in a cluster" } }

/-- As `envOk`, but `vpa_clientset.NewForConfigOrDie` does not return. -/
def envVpaClientDies : Env :=
  { envOk with vpaNewForConfigDies := fun _ => true }

/-- As `envOk`, started with `--allow-to-adjust-limits=true`. -/
def envAdjustLimits : Env :=
  { envOk with flags := { defaultFlags with allowToAdjustLimits := true } }

/-! ## Pod preprocessing and recommendation capping

`main` obtains the pod preprocessor and the capping processor from
`logic.NewDefaultPodPreProcessor` and `vpa_api_util.NewCappingRecommendationProcessor`,
packages of the repository whose code is not in `main.go`.  What they do is taken
from sections 3, 4.3 and 4.5 of the specification.
-/

/-- Modelled from the spec: the name of a resource kind (§3, "resource-name"), the
key of the requests and limits mappings; its declaration is not in `main.go`. -/
abbrev ResourceName := String

/-- Modelled from the spec: a resource quantity (§3), counted in whole units of the
smallest denomination; its declaration is not in `main.go`. -/
abbrev Quantity := Nat

/-- Modelled from the spec: a mapping resource-name → quantity (§3), as an
association list read with `List.lookup`; its declaration is not in `main.go`. -/
abbrev ResourceList := List (ResourceName × Quantity)

/-- Modelled from the spec: a container of a Pod (§3): a name, resource requests and
resource limits, each of the two possibly absent (§4.3); its declaration is not in
`main.go`. -/
structure Container where
  name : String
  requests : Option ResourceList
  limits : Option ResourceList
  deriving DecidableEq, Repr

/-- Modelled from the spec: an ownership reference of a Pod (§3),
{kind, name, controller-flag}; its declaration is not in `main.go`. -/
structure OwnerReference where
  kind : String
  name : String
  controller : Bool
  deriving DecidableEq, Repr

/-- Modelled from the spec: a Pod (§3): namespace, name, ordered containers and
ordered ownership references; its declaration is not in `main.go`. -/
structure Pod where
  nameSpace : String
  name : String
  containers : List Container
  ownerReferences : List OwnerReference
  deriving DecidableEq, Repr

/-- Modelled from the spec: the per-container step of the Pod Preprocessor (§4.3),
"absent data is filled with empty (not zero-valued) structures"; the code of the
preprocessor is not in `main.go`. -/
def Container.fillAbsent (c : Container) : Container :=
  { c with
    requests := some (c.requests.getD [])
    limits := some (c.limits.getD []) }

/-- Modelled from the spec: the Pod Preprocessor (§4.3), the `Process` operation of
the object `logic.NewDefaultPodPreProcessor()` returns, whose code is not in
`main.go`: every container gets a non-absent requests/limits structure; there is no
error condition, so the result is always `ok`. -/
def PodPreProcessor.Process (_pp : PodPreProcessor) (pod : Pod) : Except GoError Pod :=
  .ok { pod with containers := pod.containers.map Container.fillAbsent }

/-- Modelled from the spec: the mode of a per-container resource policy (§3),
{Auto, Off, RecommendationOnly}; its declaration is not in `main.go`. -/
inductive Mode where
  | Auto
  | Off
  | RecommendationOnly
  deriving DecidableEq, Repr

/-- Modelled from the spec: a range [min, max] for one resource kind, each end
present or not (§4.5 steps 3 and 4, "if present"); its declaration is not in
`main.go`. -/
structure Bounds where
  min : Option Quantity
  max : Option Quantity
  deriving DecidableEq, Repr

/-- Modelled from the spec: "clamp to [min, max] if present" (§4.5 steps 3 and 4);
the code of the capper is not in `main.go`. -/
def Bounds.clamp (b : Bounds) (v : Quantity) : Quantity :=
  let capped := match b.max with
    | some hi => Min.min v hi
    | none => v
  match b.min with
  | some lo => Max.max capped lo
  | none => capped

/-- Modelled from the spec: the intersection of two ranges, "the tightest bound
wins" (§3); the code of the capper is not in `main.go`. -/
def Bounds.inter (a b : Bounds) : Bounds :=
  { min := match a.min, b.min with
      | some x, some y => some (Max.max x y)
      | some x, none => some x
      | none, y => y
    max := match a.max, b.max with
      | some x, some y => some (Min.min x y)
      | some x, none => some x
      | none, y => y }

/-- Modelled from the spec: "an infeasible bound (min > max after intersection)"
(§4.5, failure mode); the code of the capper is not in `main.go`. -/
def Bounds.infeasible (b : Bounds) : Bool :=
  match b.min, b.max with
  | some lo, some hi => decide (hi < lo)
  | _, _ => false

/-- Modelled from the spec: the reason codes of a capped recommendation (§3),
policy-max, policy-min, namespace-range, ratio-preserving; their declaration is not
in `main.go`. -/
inductive Reason where
  | policyMax
  | policyMin
  | namespaceRange
  | ratioPreserving
  deriving DecidableEq, Repr

/-- Modelled from the spec: the Capped Recommendation of one container and resource
(§3): final value, was-capped flag, reason code, and the limit proposed by step 5 of
§4.5 when the limit is adjusted too; its declaration is not in `main.go`. -/
structure CappedRecommendation where
  value : Quantity
  wasCapped : Bool
  reason : Option Reason
  limit : Option Quantity
  deriving DecidableEq, Repr

/-- Modelled from the spec: what the capper yields for one container and resource
(§4.5): no change proposed (step 1), a configuration-error signal with the resource
left as it was (failure mode), or a capped recommendation; its declaration is not in
`main.go`. -/
inductive CapOutcome where
  | skipped
  | configurationError
  | capped (c : CappedRecommendation)
  deriving DecidableEq, Repr

/-- Modelled from the spec: "record which clamp (if any) fired" (§4.5 step 6), with
the namespace clamp taking precedence over the policy clamp as in step 4; the code
of the capper is not in `main.go`. -/
def clampReason (raw afterPolicy afterNamespace : Quantity) : Option Reason :=
  if afterNamespace ≠ afterPolicy then some .namespaceRange
  else if afterPolicy < raw then some .policyMax
  else if raw < afterPolicy then some .policyMin
  else none

/-- Modelled from the spec: step 5 of §4.5, whose code is not in `main.go`.  If the
container previously declared a limit and the configuration allows adjusting limits,
the limit is scaled by the ratio the request changed by (new request over previous
request, which needs a previous non-zero request), re-clamped against the same
bounds, and never set below its paired request. -/
def adjustLimit (allowToAdjustLimits : Bool) (policy ns : Bounds)
    (existingRequest existingLimit : Option Quantity) (newRequest : Quantity) :
    Option Quantity :=
  match existingLimit with
  | none => none
  | some limit =>
    if allowToAdjustLimits then
      match existingRequest with
      | none => none
      | some request =>
        if request = 0 then none
        else
          let scaled := limit * newRequest / request
          let reclamped := ns.clamp (policy.clamp scaled)
          some (Max.max reclamped newRequest)
    else none

/-- Modelled from the spec: the Recommendation Capper for one container and one
resource kind (§4.5, steps 1 to 6 and the failure mode), the work of the object
`vpa_api_util.NewCappingRecommendationProcessor()` returns, whose code is not in
`main.go`. -/
def capResource (allowToAdjustLimits : Bool) (mode : Mode) (optedOut : Bool)
    (policy ns : Bounds) (raw : Quantity) (existingRequest existingLimit : Option Quantity) :
    CapOutcome :=
  if mode = .Off ∨ optedOut = true then .skipped
  else if (policy.inter ns).infeasible then .configurationError
  else
    let afterPolicy := policy.clamp raw
    let afterNamespace := ns.clamp afterPolicy
    let reason := clampReason raw afterPolicy afterNamespace
    .capped
      { value := afterNamespace
        wasCapped := reason.isSome
        reason := reason
        limit := adjustLimit allowToAdjustLimits policy ns existingRequest existingLimit
          afterNamespace }

/-- Modelled from the spec: the per-container resource policy of an Autoscaling
Policy (§3): mode, declared min, declared max, per-resource opt-out list; its
declaration is not in `main.go`. -/
structure ContainerResourcePolicy where
  mode : Mode
  declaredMin : ResourceList
  declaredMax : ResourceList
  optOut : List ResourceName
  deriving DecidableEq, Repr

/-- Modelled from the spec: the namespace range the Limit Range Resolver gives for
one container (§4.4), min and max per resource kind; its declaration is not in
`main.go`. -/
structure NamespaceRange where
  min : ResourceList
  max : ResourceList
  deriving DecidableEq, Repr

/-- Modelled from the spec: the Recommendation Capper for one container (§4.5,
"per container, per resource kind"), whose code is not in `main.go`: every resource
kind of the raw target vector is capped against the policy bounds and the namespace
range for that kind, with the existing request and limit of the container. -/
def capContainer (allowToAdjustLimits : Bool) (policy : ContainerResourcePolicy)
    (range : NamespaceRange) (c : Container) (raw : ResourceList) :
    List (ResourceName × CapOutcome) :=
  raw.map fun entry =>
    (entry.1,
     capResource allowToAdjustLimits policy.mode (policy.optOut.contains entry.1)
       { min := policy.declaredMin.lookup entry.1, max := policy.declaredMax.lookup entry.1 }
       { min := range.min.lookup entry.1, max := range.max.lookup entry.1 }
       entry.2
       ((c.requests.getD []).lookup entry.1)
       ((c.limits.getD []).lookup entry.1))

/-- A Pod with one container that declares nothing and one that declares both. -/
def examplePod : Pod :=
  { nameSpace := "default"
    name := "web-0"
    containers :=
      [ { name := "sidecar", requests := none, limits := none },
        { name := "app", requests := some [("cpu", 1000), ("memory", 512)],
          limits := some [("cpu", 2000)] } ]
    ownerReferences := [{ kind := "ReplicaSet", name := "web", controller := true }] }

/-- A policy bounding cpu to [500, 4000] and memory to [256, 1024]. -/
def examplePolicy : ContainerResourcePolicy :=
  { mode := .Auto
    declaredMin := [("cpu", 500), ("memory", 256)]
    declaredMax := [("cpu", 4000), ("memory", 1024)]
    optOut := [] }

/-- A namespace range bounding cpu to [250, 2000] and memory to [128, 2048]. -/
def exampleRange : NamespaceRange :=
  { min := [("cpu", 250), ("memory", 128)]
    max := [("cpu", 2000), ("memory", 2048)] }

/-- The container "app" of `examplePod`. -/
def exampleContainer : Container :=
  { name := "app", requests := some [("cpu", 1000), ("memory", 512)],
    limits := some [("cpu", 2000)] }

/-! ## Theorems about `main` -/


/-- The trace of handled requests grows by one `Serve` and one `UpdateLastActivity`
per request, in that order. -/
theorem serveAll_calls {σ : Type} (serve : σ → ResponseWriter → Request → σ × ResponseWriter)
    (h : Handler) (reqs : List (ResponseWriter × Request)) (st : ServingState σ) :
    (h.serveAll serve st reqs).calls =
      st.calls ++ (reqs.map fun wr =>
        [Call.Serve h.as wr.2, Call.UpdateLastActivity h.healthCheck]).flatten := by
  induction reqs generalizing st with
  | nil => simp [Handler.serveAll]
  | cons wr rest ih =>
    obtain ⟨w, r⟩ := wr
    simp [Handler.serveAll, ih, Handler.ServeHTTP]

/-- Each handled request adds exactly one update of the health check. -/
theorem serveAll_updates {σ : Type} (serve : σ → ResponseWriter → Request → σ × ResponseWriter)
    (h : Handler) (reqs : List (ResponseWriter × Request)) (st : ServingState σ) :
    updatesOf h.healthCheck (h.serveAll serve st reqs).calls =
      updatesOf h.healthCheck st.calls + reqs.length := by
  induction reqs generalizing st with
  | nil => simp [Handler.serveAll]
  | cons wr rest ih =>
    obtain ⟨w, r⟩ := wr
    simp only [Handler.serveAll, ih, List.length_cons]
    simp [Handler.ServeHTTP, updatesOf, List.count_append, List.count_cons]
    omega

/-- The flag `allowToAdjustLimits` is never read by `main`. -/
theorem main_ignores_allowToAdjustLimits (env : Env) (b : Bool) :
    main { env with flags := { env.flags with allowToAdjustLimits := b } } = main env := by
  rfl


/-- What `main` builds once the configuration and both clients were obtained: the
limits checker `lc` chosen at the `if err != nil` branch goes to the recommendation
provider and to the admission server, one handler is registered and one TLS server
is started. -/
theorem main_wired (env : Env) (config : RestConfig)
    (hc : env.InClusterConfig = .ok config)
    (hv : env.vpaNewForConfigDies config = false)
    (hk : env.kubeNewForConfigDies config = false) :
    ∃ lc : LimitRangeCalculator,
      (lc = match env.NewLimitsRangeCalculatorErr
              (NewSharedInformerFactory { config := config } defaultResyncPeriod) with
            | some _ => NewNoopLimitsCalculator
            | none => .limitsChecker
                (NewSharedInformerFactory { config := config } defaultResyncPeriod)) ∧
      (main env).exit = .served ∧
      providerOf (main env).trace = some (NewRecommendationProvider lc
        NewCappingRecommendationProcessor
        (NewCompositeTargetSelectorFetcher
          [ NewVpaTargetSelectorFetcher config { config := config }
              (NewSharedInformerFactory { config := config } defaultResyncPeriod),
            NewBeta1TargetSelectorFetcher config ])
        (NewAllVpasLister { config := config })) ∧
      serverOf (main env).trace = some (NewAdmissionServer
        (NewRecommendationProvider lc
          NewCappingRecommendationProcessor
          (NewCompositeTargetSelectorFetcher
            [ NewVpaTargetSelectorFetcher config { config := config }
                (NewSharedInformerFactory { config := config } defaultResyncPeriod),
              NewBeta1TargetSelectorFetcher config ])
          (NewAllVpasLister { config := config }))
        NewDefaultPodPreProcessor lc) ∧
      handlersOf (main env).trace = [("/",
        { as := NewAdmissionServer
            (NewRecommendationProvider lc
              NewCappingRecommendationProcessor
              (NewCompositeTargetSelectorFetcher
                [ NewVpaTargetSelectorFetcher config { config := config }
                    (NewSharedInformerFactory { config := config } defaultResyncPeriod),
                  NewBeta1TargetSelectorFetcher config ])
              (NewAllVpasLister { config := config }))
            NewDefaultPodPreProcessor lc,
          healthCheck := NewHealthCheck Minute false })] ∧
      tlsServersOf (main env).trace = [
        { Addr := ":8000",
          TLSConfig := configTLS env.getClient
            (env.initCerts env.flags.certsConfiguration).serverCert
            (env.initCerts env.flags.certsConfiguration).serverKey }] := by
  cases he : env.NewLimitsRangeCalculatorErr
      (NewSharedInformerFactory { config := config } defaultResyncPeriod) with
  | none =>
    refine ⟨_, rfl, ?_, ?_, ?_, ?_, ?_⟩ <;>
      simp [main, hc, hv, hk, he, startup, providerOf, serverOf, handlersOf, tlsServersOf]
  | some err =>
    refine ⟨_, rfl, ?_, ?_, ?_, ?_, ?_⟩ <;>
      simp [main, hc, hv, hk, he, startup, providerOf, serverOf, handlersOf, tlsServersOf]

/-- Control reaches `server.ListenAndServeTLS` only with a configuration and with
both `NewForConfigOrDie` constructors returning. -/
theorem served_inv (env : Env) (h : (main env).exit = .served) :
    ∃ config, env.InClusterConfig = .ok config ∧
      env.vpaNewForConfigDies config = false ∧ env.kubeNewForConfigDies config = false := by
  cases hc : env.InClusterConfig with
  | error err => simp [main, hc] at h
  | ok config =>
    cases hv : env.vpaNewForConfigDies config with
    | true => simp [main, hc, hv] at h
    | false =>
      cases hk : env.kubeNewForConfigDies config with
      | true => simp [main, hc, hv, hk] at h
      | false => exact ⟨config, rfl, hv, hk⟩

/-- C7: whenever `main` gets as far as serving, the limit-range calculator inside
the recommendation provider and the one inside the admission server are the same
value; it is the calculator built from the informer factory when
`logic.NewLimitsRangeCalculator` succeeds, and it is the no-op calculator exactly
when `logic.NewLimitsRangeCalculator` returns an error. -/
theorem limitsChecker_shared (env : Env) (h : (main env).exit = .served) :
    ∃ (config : RestConfig) (p : RecommendationProvider) (a : AdmissionServer),
      env.InClusterConfig = .ok config ∧
      providerOf (main env).trace = some p ∧
      serverOf (main env).trace = some a ∧
      a.recommendationProvider = p ∧
      p.limitsRangeCalculator = a.limitsChecker ∧
      (env.NewLimitsRangeCalculatorErr
          (NewSharedInformerFactory { config := config } defaultResyncPeriod) = none →
        a.limitsChecker =
          .limitsChecker (NewSharedInformerFactory { config := config } defaultResyncPeriod)) ∧
      (a.limitsChecker = NewNoopLimitsCalculator ↔
        ∃ err, env.NewLimitsRangeCalculatorErr
          (NewSharedInformerFactory { config := config } defaultResyncPeriod) = some err) := by
  obtain ⟨config, hc, hv, hk⟩ := served_inv env h
  obtain ⟨lc, hlc, -, hp, ha, -, -⟩ := main_wired env config hc hv hk
  refine ⟨config, _, _, hc, hp, ha, rfl, rfl, ?_, ?_⟩
  · intro he
    rw [he] at hlc
    exact hlc
  · cases he : env.NewLimitsRangeCalculatorErr
        (NewSharedInformerFactory { config := config } defaultResyncPeriod) with
    | none =>
      rw [he] at hlc
      simp [NewAdmissionServer, NewNoopLimitsCalculator, hlc]
    | some err =>
      rw [he] at hlc
      simp [NewAdmissionServer, hlc]

/-- C7, at a concrete start-up in which every call succeeds. -/
theorem limitsChecker_shared_witness :
    (main envOk).exit = .served ∧
    ∃ (config : RestConfig) (p : RecommendationProvider) (a : AdmissionServer),
      envOk.InClusterConfig = .ok config ∧
      providerOf (main envOk).trace = some p ∧
      serverOf (main envOk).trace = some a ∧
      a.recommendationProvider = p ∧
      p.limitsRangeCalculator = a.limitsChecker ∧
      (envOk.NewLimitsRangeCalculatorErr
          (NewSharedInformerFactory { config := config } defaultResyncPeriod) = none →
        a.limitsChecker =
          .limitsChecker (NewSharedInformerFactory { config := config } defaultResyncPeriod)) ∧
      (a.limitsChecker = NewNoopLimitsCalculator ↔
        ∃ err, envOk.NewLimitsRangeCalculatorErr
          (NewSharedInformerFactory { config := config } defaultResyncPeriod) = some err) :=
  ⟨by decide, limitsChecker_shared envOk (by decide)⟩


/-- C1 (as stated, refuted): in a start-up where `logic.NewLimitsRangeCalculator`
returns an error, the limits checker inside the recommendation provider and the one
inside the admission server are the no-op calculator itself, and the admission server
is the one of the successful start-up with the no-op calculator put in both places:
nothing in it tells the failure from having no constraints. -/
theorem unknown_bounds_handed_over_as_noop :
    envNoLimitRanges.NewLimitsRangeCalculatorErr
        (NewSharedInformerFactory { config := { host := "https://10.0.0.1:443" } }
          defaultResyncPeriod) = some { msg := "informer did not sync" } ∧
      (providerOf (main envNoLimitRanges).trace).map RecommendationProvider.limitsRangeCalculator
        = some NewNoopLimitsCalculator ∧
      (serverOf (main envNoLimitRanges).trace).map AdmissionServer.limitsChecker
        = some NewNoopLimitsCalculator ∧
      serverOf (main envNoLimitRanges).trace =
        (serverOf (main envOk).trace).map fun a =>
          NewAdmissionServer
            { a.recommendationProvider with limitsRangeCalculator := NewNoopLimitsCalculator }
            a.podPreProcessor NewNoopLimitsCalculator := by
  decide

/-- C1 (amended): when `logic.NewLimitsRangeCalculator` returns an error, `main`
logs it with `Errorf`, carries on, and hands `logic.NewNoopLimitsCalculator()` to both
the recommendation provider and the admission server; the objects built do not depend
on the error. -/
theorem limits_failure_falls_back_to_noop (env : Env) (config : RestConfig) (err : GoError)
    (hc : env.InClusterConfig = .ok config)
    (hv : env.vpaNewForConfigDies config = false)
    (hk : env.kubeNewForConfigDies config = false)
    (he : env.NewLimitsRangeCalculatorErr
      (NewSharedInformerFactory { config := config } defaultResyncPeriod) = some err) :
    (main env).exit = .served ∧
    Event.Errorf
      "Failed to create limitsChecker, falling back to not checking limits. Error message: %s"
      err ∈ (main env).trace ∧
    providerOf (main env).trace = some (NewRecommendationProvider NewNoopLimitsCalculator
      NewCappingRecommendationProcessor
      (NewCompositeTargetSelectorFetcher
        [ NewVpaTargetSelectorFetcher config { config := config }
            (NewSharedInformerFactory { config := config } defaultResyncPeriod),
          NewBeta1TargetSelectorFetcher config ])
      (NewAllVpasLister { config := config })) ∧
    serverOf (main env).trace = some (NewAdmissionServer
      (NewRecommendationProvider NewNoopLimitsCalculator
        NewCappingRecommendationProcessor
        (NewCompositeTargetSelectorFetcher
          [ NewVpaTargetSelectorFetcher config { config := config }
              (NewSharedInformerFactory { config := config } defaultResyncPeriod),
            NewBeta1TargetSelectorFetcher config ])
        (NewAllVpasLister { config := config }))
      NewDefaultPodPreProcessor NewNoopLimitsCalculator) := by
  obtain ⟨lc, hlc, hex, hp, ha, -, -⟩ := main_wired env config hc hv hk
  rw [he] at hlc
  subst hlc
  refine ⟨hex, ?_, hp, ha⟩
  simp [main, hc, hv, hk, he, startup]

/-- C1 (amended), at the concrete start-up `envNoLimitRanges`. -/
theorem limits_failure_falls_back_to_noop_witness :
    (main envNoLimitRanges).exit = .served ∧
    Event.Errorf
      "Failed to create limitsChecker, falling back to not checking limits. Error message: %s"
      { msg := "informer did not sync" } ∈ (main envNoLimitRanges).trace ∧
    providerOf (main envNoLimitRanges).trace = some (NewRecommendationProvider
      NewNoopLimitsCalculator NewCappingRecommendationProcessor
      (NewCompositeTargetSelectorFetcher
        [ NewVpaTargetSelectorFetcher { host := "https://10.0.0.1:443" }
            { config := { host := "https://10.0.0.1:443" } }
            (NewSharedInformerFactory { config := { host := "https://10.0.0.1:443" } }
              defaultResyncPeriod),
          NewBeta1TargetSelectorFetcher { host := "https://10.0.0.1:443" } ])
      (NewAllVpasLister { config := { host := "https://10.0.0.1:443" } })) ∧
    serverOf (main envNoLimitRanges).trace = some (NewAdmissionServer
      (NewRecommendationProvider NewNoopLimitsCalculator
        NewCappingRecommendationProcessor
        (NewCompositeTargetSelectorFetcher
          [ NewVpaTargetSelectorFetcher { host := "https://10.0.0.1:443" }
              { config := { host := "https://10.0.0.1:443" } }
              (NewSharedInformerFactory { config := { host := "https://10.0.0.1:443" } }
                defaultResyncPeriod),
            NewBeta1TargetSelectorFetcher { host := "https://10.0.0.1:443" } ])
        (NewAllVpasLister { config := { host := "https://10.0.0.1:443" } }))
      NewDefaultPodPreProcessor NewNoopLimitsCalculator) :=
  limits_failure_falls_back_to_noop envNoLimitRanges { host := "https://10.0.0.1:443" }
    { msg := "informer did not sync" } rfl rfl rfl rfl

/-- C2 (the code at the failing input): a start-up with `--allow-to-adjust-limits=true`
and one with the default `false`, equal in everything else, perform the same calls
with the same arguments and build the same recommendation provider and admission
server. -/
theorem allowToAdjustLimits_has_no_effect :
    defaultFlags.allowToAdjustLimits = false ∧
    envAdjustLimits.flags.allowToAdjustLimits = true ∧
    envOk.flags.allowToAdjustLimits = false ∧
    main envAdjustLimits = main envOk ∧
    providerOf (main envAdjustLimits).trace = providerOf (main envOk).trace ∧
    serverOf (main envAdjustLimits).trace = serverOf (main envOk).trace ∧
    (serverOf (main envOk).trace).isSome = true := by
  decide

/-- C6 (as stated, refuted): in the start-up `envOk` the recommendation provider is
built without any pod preprocessor among its collaborators; the pod preprocessor is
a collaborator of the admission server, the caller of the provider. -/
theorem provider_built_without_preprocessor :
    ∃ (p : RecommendationProvider) (a : AdmissionServer),
      providerOf (main envOk).trace = some p ∧
      serverOf (main envOk).trace = some a ∧
      (∀ pp, Collaborator.podPreProcessor pp ∉ p.collaborators) ∧
      Collaborator.podPreProcessor NewDefaultPodPreProcessor ∈ a.collaborators ∧
      Collaborator.recommendationProvider p ∈ a.collaborators := by
  refine ⟨_, _, rfl, rfl, ?_, ?_, ?_⟩
  · intro pp
    cases pp
    decide
  · decide
  · decide

/-- C6 (amended): the recommendation provider `main` builds is constructed with
exactly the limit-range calculator, the capping recommendation processor, the
composite target-selector fetcher and the VPA lister; the pod preprocessor is not
among them and is given, with the provider and the same limit-range calculator, to the
admission server. -/
theorem provider_collaborators (env : Env) (h : (main env).exit = .served) :
    ∃ (config : RestConfig) (p : RecommendationProvider) (a : AdmissionServer),
      env.InClusterConfig = .ok config ∧
      providerOf (main env).trace = some p ∧
      serverOf (main env).trace = some a ∧
      p.collaborators =
        [ .limitsRangeCalculator a.limitsChecker,
          .recommendationProcessor NewCappingRecommendationProcessor,
          .selectorFetcher (NewCompositeTargetSelectorFetcher
            [ NewVpaTargetSelectorFetcher config { config := config }
                (NewSharedInformerFactory { config := config } defaultResyncPeriod),
              NewBeta1TargetSelectorFetcher config ]),
          .vpaLister (NewAllVpasLister { config := config }) ] ∧
      (∀ pp, Collaborator.podPreProcessor pp ∉ p.collaborators) ∧
      a.collaborators =
        [ .recommendationProvider p,
          .podPreProcessor NewDefaultPodPreProcessor,
          .limitsRangeCalculator p.limitsRangeCalculator ] := by
  obtain ⟨config, hc, hv, hk⟩ := served_inv env h
  obtain ⟨lc, -, -, hp, ha, -, -⟩ := main_wired env config hc hv hk
  refine ⟨config, _, _, hc, hp, ha, rfl, ?_, rfl⟩
  intro pp
  simp [RecommendationProvider.collaborators]

/-- C6 (amended), at the concrete start-up `envNoLimitRanges`. -/
theorem provider_collaborators_witness :
    (main envNoLimitRanges).exit = .served ∧
    ∃ (config : RestConfig) (p : RecommendationProvider) (a : AdmissionServer),
      envNoLimitRanges.InClusterConfig = .ok config ∧
      providerOf (main envNoLimitRanges).trace = some p ∧
      serverOf (main envNoLimitRanges).trace = some a ∧
      p.collaborators =
        [ .limitsRangeCalculator a.limitsChecker,
          .recommendationProcessor NewCappingRecommendationProcessor,
          .selectorFetcher (NewCompositeTargetSelectorFetcher
            [ NewVpaTargetSelectorFetcher config { config := config }
                (NewSharedInformerFactory { config := config } defaultResyncPeriod),
              NewBeta1TargetSelectorFetcher config ]),
          .vpaLister (NewAllVpasLister { config := config }) ] ∧
      (∀ pp, Collaborator.podPreProcessor pp ∉ p.collaborators) ∧
      a.collaborators =
        [ .recommendationProvider p,
          .podPreProcessor NewDefaultPodPreProcessor,
          .limitsRangeCalculator p.limitsRangeCalculator ] :=
  ⟨by decide, provider_collaborators envNoLimitRanges (by decide)⟩


/-- C8 (as stated, refuted): in the start-up `envVpaClientDies` the call
`rest.InClusterConfig()` succeeds, yet the process ends inside
`vpa_clientset.NewForConfigOrDie`: no handler is registered and no TLS server is
started. -/
theorem abort_without_config_error :
    envVpaClientDies.InClusterConfig = .ok { host := "https://10.0.0.1:443" } ∧
    (main envVpaClientDies).exit = .died ∧
    (main envVpaClientDies).aborted = true ∧
    handlersOf (main envVpaClientDies).trace = [] ∧
    tlsServersOf (main envVpaClientDies).trace = [] :=
  ⟨rfl, by decide, by decide, by decide, by decide⟩

/-- C8 (amended): `main` ends early exactly when `rest.InClusterConfig` returns an
error or one of the two `NewForConfigOrDie` constructors does not return.  On the
error, `glog.Fatal` ends it right after the start-up calls, before any client,
lister, informer factory, recommendation provider, admission server, handler or TLS
server is created.  With a configuration and both clients, the handler for "/" is
registered and `ListenAndServeTLS` is called on the server for ":8000", whatever
`logic.NewLimitsRangeCalculator` returned. -/
theorem main_abort_paths (env : Env) :
    ((main env).aborted = true ↔
      (∃ err, env.InClusterConfig = .error err) ∨
      ∃ config, env.InClusterConfig = .ok config ∧
        (env.vpaNewForConfigDies config = true ∨ env.kubeNewForConfigDies config = true)) ∧
    (∀ err, env.InClusterConfig = .error err →
      (main env).exit = .fatal err ∧
      (main env).trace = startup env ++ [.Fatal err] ∧
      ∀ e ∈ (main env).trace, e.createsPipelineObject = false) ∧
    (∀ config, env.InClusterConfig = .ok config →
      env.vpaNewForConfigDies config = false →
      env.kubeNewForConfigDies config = false →
      (main env).exit = .served ∧
      (∃ a, serverOf (main env).trace = some a ∧
        handlersOf (main env).trace =
          [("/", { as := a, healthCheck := NewHealthCheck Minute false })]) ∧
      ∃ tls, tlsServersOf (main env).trace = [{ Addr := ":8000", TLSConfig := tls }]) := by
  refine ⟨?_, ?_, ?_⟩
  · cases hc : env.InClusterConfig with
    | error err => simp [main, hc, MainResult.aborted]
    | ok config =>
      cases hv : env.vpaNewForConfigDies config with
      | true => simp [main, hc, hv, MainResult.aborted]
      | false =>
        cases hk : env.kubeNewForConfigDies config with
        | true => simp [main, hc, hv, hk, MainResult.aborted]
        | false =>
          obtain ⟨lc, -, hex, -⟩ := main_wired env config hc hv hk
          simp [hex, MainResult.aborted, hv, hk]
  · intro err hc
    refine ⟨?_, ?_, ?_⟩
    · simp [main, hc]
    · simp [main, hc]
    · simp [main, hc, startup, Event.createsPipelineObject]
  · intro config hc hv hk
    obtain ⟨lc, -, hex, -, ha, hh, ht⟩ := main_wired env config hc hv hk
    exact ⟨hex, ⟨_, ha, hh⟩, ⟨_, ht⟩⟩

/-- C8 (amended), at two concrete start-ups: without a configuration nothing of the
pipeline is created; with one, and with the limit-range calculator failing, the
handler is registered and the TLS server started. -/
theorem main_abort_paths_witness :
    ((main envNoConfig).exit = .fatal { msg := "not running in a cluster" } ∧
      (main envNoConfig).trace =
        startup envNoConfig ++ [.Fatal { msg := "not running in a cluster" }] ∧
      ∀ e ∈ (main envNoConfig).trace, e.createsPipelineObject = false) ∧
    ((main envNoLimitRanges).exit = .served ∧
      (∃ a, serverOf (main envNoLimitRanges).trace = some a ∧
        handlersOf (main envNoLimitRanges).trace =
          [("/", { as := a, healthCheck := NewHealthCheck Minute false })]) ∧
      ∃ tls, tlsServersOf (main envNoLimitRanges).trace =
        [{ Addr := ":8000", TLSConfig := tls }]) :=
  ⟨(main_abort_paths envNoConfig).2.1 { msg := "not running in a cluster" } rfl,
   (main_abort_paths envNoLimitRanges).2.2 { host := "https://10.0.0.1:443" } rfl rfl rfl⟩

/-- C9: a handler registered by `main` is registered for "/", captures the admission
server `main` built and the health check of `NewHealthCheck(time.Minute, false)`; on
each request it calls `Serve` of that server once on that request and then
`UpdateLastActivity` of that health check once, hands back what `Serve` wrote, and so
after any sequence of handled requests the health check was updated once per
request. -/
theorem handler_serves_then_updates (env : Env) (pattern : String) (h : Handler)
    (hreg : (pattern, h) ∈ handlersOf (main env).trace) :
    (pattern = "/" ∧ serverOf (main env).trace = some h.as ∧
      h.healthCheck = NewHealthCheck Minute false) ∧
    ∀ (σ : Type) (serve : σ → ResponseWriter → Request → σ × ResponseWriter)
      (st : ServingState σ),
      (∀ (w : ResponseWriter) (r : Request),
        (h.ServeHTTP serve st w r).1.calls =
          st.calls ++ [Call.Serve h.as r, Call.UpdateLastActivity h.healthCheck] ∧
        (h.ServeHTTP serve st w r).1.server = (serve st.server w r).1 ∧
        (h.ServeHTTP serve st w r).2 = (serve st.server w r).2) ∧
      ∀ reqs : List (ResponseWriter × Request),
        (h.serveAll serve st reqs).calls =
          st.calls ++ (reqs.map fun wr =>
            [Call.Serve h.as wr.2, Call.UpdateLastActivity h.healthCheck]).flatten ∧
        updatesOf h.healthCheck (h.serveAll serve st reqs).calls =
          updatesOf h.healthCheck st.calls + reqs.length := by
  constructor
  · cases hc : env.InClusterConfig with
    | error err => simp [main, hc, startup, handlersOf] at hreg
    | ok config =>
      cases hv : env.vpaNewForConfigDies config with
      | true => simp [main, hc, hv, startup, handlersOf] at hreg
      | false =>
        cases hk : env.kubeNewForConfigDies config with
        | true => simp [main, hc, hv, hk, startup, handlersOf] at hreg
        | false =>
          obtain ⟨lc, -, -, -, ha, hh, -⟩ := main_wired env config hc hv hk
          rw [hh] at hreg
          simp at hreg
          obtain ⟨rfl, rfl⟩ := hreg
          exact ⟨rfl, ha, rfl⟩
  · intro σ serve st
    refine ⟨?_, ?_⟩
    · intro w r
      simp [Handler.ServeHTTP]
    · intro reqs
      exact ⟨serveAll_calls serve h reqs st, serveAll_updates serve h reqs st⟩

/-- C9, at the concrete start-up `envOk`, with a `Serve` that counts the requests it
saw and writes the request body to the response. -/
theorem handler_serves_then_updates_witness :
    ∃ h : Handler, ("/", h) ∈ handlersOf (main envOk).trace ∧
      (h.ServeHTTP (fun (n : Nat) w r => (n + 1, w ++ [r.body])) { server := 0, calls := [] } []
          { path := "/", body := "review" }).1.calls =
        [Call.Serve h.as { path := "/", body := "review" },
         Call.UpdateLastActivity h.healthCheck] ∧
      updatesOf h.healthCheck
        (h.serveAll (fun (n : Nat) w r => (n + 1, w ++ [r.body])) { server := 0, calls := [] }
          [([], { path := "/", body := "a" }), ([], { path := "/", body := "b" }),
           ([], { path := "/x", body := "c" })]).calls = 3 := by
  have hmem : ("/", Handler.mk ((serverOf (main envOk).trace).get (by decide))
      (NewHealthCheck Minute false)) ∈ handlersOf (main envOk).trace := by decide
  have key := (handler_serves_then_updates envOk "/" _ hmem).2 Nat
    (fun (n : Nat) w r => (n + 1, w ++ [r.body])) { server := 0, calls := [] }
  refine ⟨_, hmem, ?_, ?_⟩
  · simpa using (key.1 [] { path := "/", body := "review" }).1
  · simpa [updatesOf] using (key.2
      [([], { path := "/", body := "a" }), ([], { path := "/", body := "b" }),
       ([], { path := "/x", body := "c" })]).2

/-! ## Theorems about pod preprocessing and capping -/


/-- Filling absent structures a second time changes nothing. -/
theorem fillAbsent_idem (c : Container) : c.fillAbsent.fillAbsent = c.fillAbsent := by
  simp [Container.fillAbsent]

/-- Two overlapping ranges, clamped to one after the other, clamp to their
intersection. -/
theorem clamp_clamp_of_overlap (pmin pmax nmin nmax v : Quantity)
    (h : max pmin nmin ≤ min pmax nmax) :
    Bounds.clamp { min := some nmin, max := some nmax }
        (Bounds.clamp { min := some pmin, max := some pmax } v) =
      max (min v (min pmax nmax)) (max pmin nmin) := by
  simp only [Bounds.clamp]
  unfold Quantity at *
  omega

/-- C5: the Pod Preprocessor always succeeds, its result has a present requests and
a present limits structure in every container, keeps the names of the containers and their
order, and running it on its own result gives that result again. -/
theorem preprocess_total_idempotent (pp : PodPreProcessor) (pod : Pod) :
    ∃ q : Pod, pp.Process pod = .ok q ∧
      pp.Process q = .ok q ∧
      (pp.Process pod >>= pp.Process) = pp.Process pod ∧
      (∀ c ∈ q.containers, c.requests.isSome = true ∧ c.limits.isSome = true) ∧
      q.containers.map Container.name = pod.containers.map Container.name := by
  refine ⟨{ pod with containers := pod.containers.map Container.fillAbsent }, rfl, ?_, ?_, ?_, ?_⟩
  · simp [PodPreProcessor.Process, fillAbsent_idem]
  · show pp.Process { pod with containers := pod.containers.map Container.fillAbsent } = _
    simp [PodPreProcessor.Process, fillAbsent_idem]
  · intro c hc
    simp only [List.mem_map] at hc
    obtain ⟨c0, -, rfl⟩ := hc
    simp [Container.fillAbsent]
  · simp [Container.fillAbsent, Function.comp_def]

/-- With a policy range and a namespace range that overlap, a capped outcome carries
the raw value clamped onto their intersection. -/
theorem capResource_of_overlap (allowToAdjustLimits : Bool) (mode : Mode) (optedOut : Bool)
    (pmin pmax nmin nmax v : Quantity) (existingRequest existingLimit : Option Quantity)
    (cr : CappedRecommendation) (hne : max pmin nmin ≤ min pmax nmax)
    (h : capResource allowToAdjustLimits mode optedOut { min := some pmin, max := some pmax }
      { min := some nmin, max := some nmax } v existingRequest existingLimit = .capped cr) :
    cr.value = max (min v (min pmax nmax)) (max pmin nmin) := by
  unfold capResource at h
  split at h
  · simp at h
  · split at h
    · simp at h
    · simp only [CapOutcome.capped.injEq] at h
      subst h
      exact clamp_clamp_of_overlap pmin pmax nmin nmax v hne

/-- With a policy range and a namespace range that overlap, the capper yields a
capped value unless the mode is Off or the resource kind is opted out. -/
theorem capResource_capped (allowToAdjustLimits : Bool) (mode : Mode)
    (pmin pmax nmin nmax v : Quantity) (existingRequest existingLimit : Option Quantity)
    (hmode : mode ≠ .Off) (hne : max pmin nmin ≤ min pmax nmax) :
    ∃ cr, capResource allowToAdjustLimits mode false { min := some pmin, max := some pmax }
      { min := some nmin, max := some nmax } v existingRequest existingLimit = .capped cr := by
  have hfeas : (Bounds.inter { min := some pmin, max := some pmax }
      { min := some nmin, max := some nmax }).infeasible = false := by
    simp only [Bounds.inter, Bounds.infeasible, decide_eq_false_iff_not]
    unfold Quantity at *
    omega
  simp only [capResource, hmode, hfeas]
  simp

/-- C3: for a container and a resource kind with a policy range [pmin, pmax] and
a namespace range [nmin, nmax] that overlap, every capped value the capper yields for
that kind lies in the intersection of the two ranges; and unless the mode is Off or
the kind is opted out, the capper yields a capped value for every raw value of that
kind, equal to the tighter lower bound when the raw value is below the intersection,
to the tighter upper bound when it is above, and to the raw value otherwise. -/
theorem tightest_wins (allowToAdjustLimits : Bool) (policy : ContainerResourcePolicy)
    (range : NamespaceRange) (c : Container) (raw : ResourceList)
    (res : ResourceName) (pmin pmax nmin nmax : Quantity)
    (hpmin : policy.declaredMin.lookup res = some pmin)
    (hpmax : policy.declaredMax.lookup res = some pmax)
    (hnmin : range.min.lookup res = some nmin)
    (hnmax : range.max.lookup res = some nmax)
    (hne : max pmin nmin ≤ min pmax nmax) :
    (∀ cr : CappedRecommendation,
      (res, CapOutcome.capped cr) ∈ capContainer allowToAdjustLimits policy range c raw →
      max pmin nmin ≤ cr.value ∧ cr.value ≤ min pmax nmax) ∧
    (∀ v : Quantity, (res, v) ∈ raw → policy.mode ≠ .Off → res ∉ policy.optOut →
      ∃ cr : CappedRecommendation,
        (res, CapOutcome.capped cr) ∈ capContainer allowToAdjustLimits policy range c raw ∧
        (v < max pmin nmin → cr.value = max pmin nmin) ∧
        (min pmax nmax < v → cr.value = min pmax nmax) ∧
        (max pmin nmin ≤ v → v ≤ min pmax nmax → cr.value = v)) := by
  have hval : ∀ v : Quantity,
      max pmin nmin ≤ max (min v (min pmax nmax)) (max pmin nmin) ∧
      max (min v (min pmax nmax)) (max pmin nmin) ≤ min pmax nmax ∧
      (v < max pmin nmin → max (min v (min pmax nmax)) (max pmin nmin) = max pmin nmin) ∧
      (min pmax nmax < v → max (min v (min pmax nmax)) (max pmin nmin) = min pmax nmax) ∧
      (max pmin nmin ≤ v → v ≤ min pmax nmax →
        max (min v (min pmax nmax)) (max pmin nmin) = v) := by
    intro v
    unfold Quantity at *
    omega
  constructor
  · intro cr hmem
    simp only [capContainer, List.mem_map] at hmem
    obtain ⟨entry, -, hentry⟩ := hmem
    simp only [Prod.mk.injEq] at hentry
    obtain ⟨hres, hcap⟩ := hentry
    rw [hres, hpmin, hpmax, hnmin, hnmax] at hcap
    rw [capResource_of_overlap _ _ _ pmin pmax nmin nmax entry.2 _ _ cr hne hcap]
    exact ⟨(hval entry.2).1, (hval entry.2).2.1⟩
  · intro v hraw hmode hopt
    have hc : policy.optOut.contains res = false := by
      simpa using hopt
    obtain ⟨cr, hcr⟩ := capResource_capped allowToAdjustLimits policy.mode pmin pmax nmin nmax v
      ((c.requests.getD []).lookup res) ((c.limits.getD []).lookup res) hmode hne
    have hv := capResource_of_overlap _ _ _ pmin pmax nmin nmax v _ _ cr hne hcr
    refine ⟨cr, ?_, ?_⟩
    · simp only [capContainer, List.mem_map]
      refine ⟨(res, v), hraw, ?_⟩
      simp only [hpmin, hpmax, hnmin, hnmax, hc, hcr]
    · rw [hv]
      exact (hval v).2.2

/-- C3, at the container "app": policy range [500, 4000] and namespace range
[250, 2000] for cpu, raw target 3000 above their intersection [500, 2000]. -/
theorem tightest_wins_witness :
    ∃ cr : CappedRecommendation,
      ("cpu", CapOutcome.capped cr) ∈
        capContainer true examplePolicy exampleRange exampleContainer
          [("cpu", 3000), ("memory", 100)] ∧
      cr.value = 2000 := by
  obtain ⟨cr, hmem, -, hup, -⟩ :=
    (tightest_wins true examplePolicy exampleRange exampleContainer
      [("cpu", 3000), ("memory", 100)] "cpu" 500 4000 250 2000
      (by decide) (by decide) (by decide) (by decide) (by decide)).2
      3000 (by decide) (by decide) (by decide)
  exact ⟨cr, hmem, (hup (by decide)).trans (by decide)⟩

/-- Clamping is monotone. -/
theorem clamp_mono (b : Bounds) (x y : Quantity) (h : x ≤ y) : b.clamp x ≤ b.clamp y := by
  obtain ⟨lo, hi⟩ := b
  cases lo <;> cases hi <;> simp only [Bounds.clamp] <;> unfold Quantity at * <;> omega

/-- The limit proposed by step 5 is never below the request it is paired with. -/
theorem adjustLimit_ge (allowToAdjustLimits : Bool) (policy ns : Bounds)
    (existingRequest existingLimit : Option Quantity) (newRequest lim : Quantity)
    (h : adjustLimit allowToAdjustLimits policy ns existingRequest existingLimit newRequest
      = some lim) :
    newRequest ≤ lim := by
  unfold adjustLimit at h
  split at h
  · simp at h
  · split at h
    · split at h
      · simp at h
      · split at h
        · simp at h
        · simp only [Option.some.injEq] at h
          unfold Quantity at *
          omega
    · simp at h

/-- For a container whose declared limit is at least its declared, non-zero request,
the scaled and re-clamped limit is already at least the new request: the limit
proposed is that value. -/
theorem adjustLimit_of_ordered (policy ns : Bounds) (request limit newRequest : Quantity)
    (hpos : 0 < request) (hle : request ≤ limit)
    (hfix : ns.clamp (policy.clamp newRequest) = newRequest) :
    adjustLimit true policy ns (some request) (some limit) newRequest =
      some (ns.clamp (policy.clamp (limit * newRequest / request))) := by
  have hscaled : newRequest ≤ limit * newRequest / request := by
    rw [Nat.le_div_iff_mul_le hpos]
    calc newRequest * request = request * newRequest := Nat.mul_comm _ _
      _ ≤ limit * newRequest := Nat.mul_le_mul_right _ hle
  have hmono := clamp_mono ns _ _ (clamp_mono policy _ _ hscaled)
  rw [hfix] at hmono
  have hne : request ≠ 0 := Nat.pos_iff_ne_zero.mp hpos
  simp only [adjustLimit, if_true, hne, if_false]
  exact congrArg some (max_eq_left hmono)

/-- C4: for every container and every resource kind, whenever the capper proposes
both a request and a limit, the limit is at least the request. -/
theorem limit_not_below_request (allowToAdjustLimits : Bool)
    (policy : ContainerResourcePolicy) (range : NamespaceRange) (c : Container)
    (raw : ResourceList) (res : ResourceName) (cr : CappedRecommendation) (lim : Quantity)
    (hmem : (res, CapOutcome.capped cr) ∈
      capContainer allowToAdjustLimits policy range c raw)
    (hlim : cr.limit = some lim) :
    cr.value ≤ lim := by
  simp only [capContainer, List.mem_map] at hmem
  obtain ⟨entry, -, hentry⟩ := hmem
  simp only [Prod.mk.injEq] at hentry
  obtain ⟨-, hcap⟩ := hentry
  unfold capResource at hcap
  split at hcap
  · simp at hcap
  · split at hcap
    · simp at hcap
    · simp only [CapOutcome.capped.injEq] at hcap
      subst hcap
      exact adjustLimit_ge _ _ _ _ _ _ _ hlim

/-- C4, at the container "app": its cpu request 1000 with limit 2000 and a raw target
of 1500 give request 1500 and limit 2000 (scaled to 3000, re-clamped to 2000). -/
theorem limit_not_below_request_witness :
    ("cpu", CapOutcome.capped
        { value := 1500, wasCapped := false, reason := none, limit := some 2000 }) ∈
      capContainer true examplePolicy exampleRange exampleContainer [("cpu", 1500)] ∧
    (1500 : Quantity) ≤ 2000 :=
  ⟨by decide,
   limit_not_below_request true examplePolicy exampleRange exampleContainer [("cpu", 1500)]
     "cpu" { value := 1500, wasCapped := false, reason := none, limit := some 2000 } 2000
     (by decide) rfl⟩

/-- The scenario of §8: a namespace range capping cpu at 2 cores and a recommendation
of 3 cores for container "app" yield a request of 2 cores, was-capped, and the
reason namespace-range. -/
theorem scenario_namespace_range_caps_cpu :
    capContainer false { mode := .Auto, declaredMin := [], declaredMax := [], optOut := [] }
        { min := [], max := [("cpu", 2000)] }
        { name := "app", requests := some [], limits := some [] } [("cpu", 3000)] =
      [("cpu", CapOutcome.capped
        { value := 2000, wasCapped := true, reason := some .namespaceRange, limit := none })] := by
  decide

/-- C5, at `examplePod`, whose first container declares neither requests nor
limits. -/
theorem preprocess_example :
    PodPreProcessor.default.Process examplePod = .ok
      { examplePod with
        containers :=
          [ { name := "sidecar", requests := some [], limits := some [] },
            { name := "app", requests := some [("cpu", 1000), ("memory", 512)],
              limits := some [("cpu", 2000)] } ] } := by
  rfl

end AdmissionController
